import Mathlib

set_option linter.unusedVariables false
set_option maxRecDepth 10000

/-!
Verification of the SCA-App RAG pipeline (backend/rag.py, backend/ingest.py)
against its natural-language specification.

The Python source is shallowly embedded: pure string / list manipulation is
translated directly; external collaborators (the sentence-transformers
embedding model, the FAISS flat inner-product index, the Groq completion
service, the langchain text splitter, the file system) are modelled as
explicit function parameters or input data, per the contracts the code
relies on.  Python `float` scores are modelled with `Rat`.
-/

/-- Opening brace character, written via its code point. -/
def lbrace : Char := Char.ofNat 123

/-- Closing brace character, written via its code point. -/
def rbrace : Char := Char.ofNat 125

/-- Whitespace as matched by the Python `str.strip()` method and the regex class
`\s` (ASCII range: space, tab, newline, carriage return, vertical tab,
form feed). -/
def isWsCh (c : Char) : Bool :=
  c == ' ' || c == '\t' || c == '\n' || c == '\r' || c == Char.ofNat 11 || c == Char.ofNat 12

/-- Python `str.strip()` on a character list. -/
def pyStrip (cs : List Char) : List Char :=
  ((cs.dropWhile isWsCh).reverse.dropWhile isWsCh).reverse

/-- Case-sensitive list prefix test. -/
def listStartsWith : List Char → List Char → Bool
  | [], _ => true
  | _ :: _, [] => false
  | p :: ps, c :: cs => (p == c) && listStartsWith ps cs

/-- Substring test (Python `in` on strings). -/
def isSubstr : List Char → List Char → Bool
  | pat, [] => pat.isEmpty
  | pat, c :: rest => listStartsWith pat (c :: rest) || isSubstr pat rest

/-- Case-insensitive prefix test (for regex `re.IGNORECASE`). -/
def lowersMatch : List Char → List Char → Bool
  | [], _ => true
  | _ :: _, [] => false
  | p :: ps, c :: cs => (p.toLower == c.toLower) && lowersMatch ps cs

/-- Case-insensitive pattern occurrence at index `i`. -/
def icasePrefixAt (cs : List Char) (i : Nat) (pat : List Char) : Bool :=
  lowersMatch pat (cs.drop i)

/-- Length of the run of characters satisfying `p` starting at index `i`. -/
def runLen (p : Char → Bool) (cs : List Char) (i : Nat) : Nat :=
  ((cs.drop i).takeWhile p).length

/-- JSON value as produced by the Python `json.loads` function.  Numbers keep their
source token (no claim inspects numeric values). -/
inductive Json where
  | null : Json
  | bool (b : Bool) : Json
  | num (tok : String) : Json
  | str (s : String) : Json
  | arr (items : List Json) : Json
  | obj (fields : List (String × Json)) : Json

/-- Python dict insert: overwrite an existing key in place, else append
(CPython dicts preserve insertion order and update in place). -/
def setField : List (String × Json) → String → Json → List (String × Json)
  | [], k, v => [(k, v)]
  | (k', v') :: fs, k, v => if k' == k then (k, v) :: fs else (k', v') :: setField fs k v

/-- First (hence, after `setField`, only) binding of a key in a parsed
object. -/
def lookupField : List (String × Json) → String → Option Json
  | [], _ => none
  | (k', v) :: fs, k => if k' == k then some v else lookupField fs k

/-- Whitespace skipped by the Python json decoder (`[ \t\n\r]*`). -/
def isJsonWs (c : Char) : Bool :=
  c == ' ' || c == '\t' || c == '\n' || c == '\r'

/-- Skip json decoder whitespace. -/
def skipJsonWs (cs : List Char) : List Char := cs.dropWhile isJsonWs

/-- Hexadecimal digit value, for `\uXXXX` string escapes. -/
def hexVal (c : Char) : Option Nat :=
  if c.isDigit then some (c.toNat - 48)
  else if 'a' ≤ c && c ≤ 'f' then some (c.toNat - 87)
  else if 'A' ≤ c && c ≤ 'F' then some (c.toNat - 55)
  else none

/-- Body of a JSON string after the opening quote, per the strict Python
decoder: the listed escapes are recognised, unescaped control characters
are rejected.  Returns the decoded characters and the unconsumed rest. -/
def parseStrAux : List Char → List Char → Option (List Char × List Char)
  | [], _ => none
  | c :: r, acc =>
    if c = '"' then some (acc.reverse, r)
    else if c = '\\' then
      match r with
      | [] => none
      | e :: r2 =>
        if e = '"' then parseStrAux r2 ('"' :: acc)
        else if e = '\\' then parseStrAux r2 ('\\' :: acc)
        else if e = '/' then parseStrAux r2 ('/' :: acc)
        else if e = 'b' then parseStrAux r2 (Char.ofNat 8 :: acc)
        else if e = 'f' then parseStrAux r2 (Char.ofNat 12 :: acc)
        else if e = 'n' then parseStrAux r2 ('\n' :: acc)
        else if e = 'r' then parseStrAux r2 ('\r' :: acc)
        else if e = 't' then parseStrAux r2 ('\t' :: acc)
        else if e = 'u' then
          match r2 with
          | h1 :: h2 :: h3 :: h4 :: r3 =>
            match hexVal h1, hexVal h2, hexVal h3, hexVal h4 with
            | some a, some b, some c2, some d =>
              parseStrAux r3 (Char.ofNat (a * 4096 + b * 256 + c2 * 16 + d) :: acc)
            | _, _, _, _ => none
          | _ => none
        else none
    else if c.toNat < 32 then none
    else parseStrAux r (c :: acc)

/-- Maximal-munch number token per the NUMBER_RE regex of the Python json
module:
`(-?(?:0|[1-9]\d*))(\.\d+)?([eE][-+]?\d+)?`. -/
def parseNumTok (cs : List Char) : Option (List Char × List Char) :=
  let (sign, cs1) : List Char × List Char :=
    match cs with
    | '-' :: r => (['-'], r)
    | _ => ([], cs)
  match cs1 with
  | [] => none
  | c :: r =>
    if !c.isDigit then none
    else
      let (ip, rest) : List Char × List Char :=
        if c = '0' then (['0'], r)
        else
          let ds := r.takeWhile Char.isDigit
          (c :: ds, r.drop ds.length)
      let (fp, rest2) : List Char × List Char :=
        match rest with
        | '.' :: r2 =>
          let ds := r2.takeWhile Char.isDigit
          if ds.isEmpty then ([], rest) else ('.' :: ds, r2.drop ds.length)
        | _ => ([], rest)
      let (ep, rest3) : List Char × List Char :=
        match rest2 with
        | e :: r3 =>
          if e = 'e' || e = 'E' then
            let (sg, r4) : List Char × List Char :=
              match r3 with
              | '+' :: r5 => (['+'], r5)
              | '-' :: r5 => (['-'], r5)
              | _ => ([], r3)
            let ds := r4.takeWhile Char.isDigit
            if ds.isEmpty then ([], rest2) else (e :: (sg ++ ds), r4.drop ds.length)
          else ([], rest2)
        | [] => ([], rest2)
      some (sign ++ ip ++ fp ++ ep, rest3)

/-- Mode of the fueled json value scanner: a plain value, the members of
an object being parsed, or the items of an array being parsed. -/
inductive PM where
  | value : PM
  | members (acc : List (String × Json)) : PM
  | items (acc : List Json) : PM

/-- Fueled scanner for one JSON value, following the strict grammar of the
Python `json.loads` function (including its `NaN` / `Infinity` extensions).
Every recursive call consumes at least one character per two fuel units,
so fuel `2 * length + 2` is always sufficient. -/
def parseCore : Nat → PM → List Char → Option (Json × List Char)
  | 0, _, _ => none
  | Nat.succ _, PM.value, [] => none
  | Nat.succ f, PM.value, c :: rest =>
    if c = lbrace then
      match skipJsonWs rest with
      | [] => none
      | c2 :: r2 =>
        if c2 = rbrace then some (Json.obj [], r2)
        else parseCore f (PM.members []) (c2 :: r2)
    else if c = '[' then
      match skipJsonWs rest with
      | ']' :: r2 => some (Json.arr [], r2)
      | r2 => parseCore f (PM.items []) r2
    else if c = '"' then
      (parseStrAux rest []).map (fun p => (Json.str (String.mk p.1), p.2))
    else if c = 't' then
      match rest with
      | 'r' :: 'u' :: 'e' :: r => some (Json.bool true, r)
      | _ => none
    else if c = 'f' then
      match rest with
      | 'a' :: 'l' :: 's' :: 'e' :: r => some (Json.bool false, r)
      | _ => none
    else if c = 'n' then
      match rest with
      | 'u' :: 'l' :: 'l' :: r => some (Json.null, r)
      | _ => none
    else if c = 'N' then
      match rest with
      | 'a' :: 'N' :: r => some (Json.num "NaN", r)
      | _ => none
    else if c = 'I' then
      match rest with
      | 'n' :: 'f' :: 'i' :: 'n' :: 'i' :: 't' :: 'y' :: r => some (Json.num "Infinity", r)
      | _ => none
    else if c = '-' then
      match rest with
      | 'I' :: 'n' :: 'f' :: 'i' :: 'n' :: 'i' :: 't' :: 'y' :: r =>
        some (Json.num "-Infinity", r)
      | _ => (parseNumTok (c :: rest)).map (fun p => (Json.num (String.mk p.1), p.2))
    else if c.isDigit then
      (parseNumTok (c :: rest)).map (fun p => (Json.num (String.mk p.1), p.2))
    else none
  | Nat.succ f, PM.members acc, cs =>
    match cs with
    | '"' :: r =>
      match parseStrAux r [] with
      | none => none
      | some (key, r1) =>
        match skipJsonWs r1 with
        | ':' :: r3 =>
          match parseCore f PM.value (skipJsonWs r3) with
          | none => none
          | some (v, r5) =>
            let acc2 := setField acc (String.mk key) v
            match skipJsonWs r5 with
            | ',' :: r7 => parseCore f (PM.members acc2) (skipJsonWs r7)
            | c :: r7 => if c = rbrace then some (Json.obj acc2, r7) else none
            | [] => none
        | _ => none
    | _ => none
  | Nat.succ f, PM.items acc, cs =>
    match parseCore f PM.value cs with
    | none => none
    | some (v, r) =>
      match skipJsonWs r with
      | ',' :: r2 => parseCore f (PM.items (acc ++ [v])) (skipJsonWs r2)
      | ']' :: r2 => some (Json.arr (acc ++ [v]), r2)
      | _ => none

/-- Python `json.loads` on a character list: skip leading whitespace,
parse exactly one value, require only whitespace to remain (a
`JSONDecodeError` is `none`). -/
def jsonParse (cs : List Char) : Option Json :=
  let cs1 := skipJsonWs cs
  match parseCore (2 * cs1.length + 2) PM.value cs1 with
  | some (v, rest) => if skipJsonWs rest = [] then some v else none
  | none => none

/-- The Python expression `"questions" in quiz_data` for an arbitrary
json value:
key membership on a dict, element equality on a list, substring on a
string, and a `TypeError` (`none`) on the remaining types. -/
def pyContains (j : Json) (k : String) : Option Bool :=
  match j with
  | Json.obj fs => some (fs.any (fun p => p.1 == k))
  | Json.arr xs =>
    some (xs.any (fun x => match x with | Json.str s => s == k | _ => false))
  | Json.str s => some (isSubstr k.data s.data)
  | _ => none

/-- Index of the last occurrence of `c`, if any. -/
def lastIdxOf (c : Char) : List Char → Option Nat
  | [] => none
  | x :: xs =>
    match lastIdxOf c xs with
    | some k => some (k + 1)
    | none => if x = c then some 0 else none

/-- The span matched by `re.search` with pattern `r"\x7b[\s\S]*\x7d"` (rag.py line
296): the leftmost-greedy match runs from the first `\x7b` to the last
`\x7d` of the text, provided that `\x7d` lies strictly after the
`\x7b`. -/
def greedySpan : List Char → Option (List Char)
  | [] => none
  | c :: cs =>
    if c = lbrace then
      match lastIdxOf rbrace cs with
      | some k => some (c :: cs.take (k + 1))
      | none => none
    else greedySpan cs

/-- One pass of `re.sub`, deleting pattern `pat` plus trailing whitespace,
for a literal non-empty `pat`: each non-overlapping occurrence of the token and the whitespace
run following it is deleted, scanning left to right. -/
def stripTokenAux (pat : List Char) : Nat → List Char → List Char
  | 0, cs => cs
  | Nat.succ f, [] => []
  | Nat.succ f, c :: rest =>
    if listStartsWith pat (c :: rest) then
      stripTokenAux pat f (((c :: rest).drop pat.length).dropWhile isWsCh)
    else c :: stripTokenAux pat f rest

/-- The tier-2 cleaning step (rag.py lines 306-307):
first delete every fenced `json` opener plus trailing whitespace, then
every remaining triple backtick plus trailing whitespace. -/
def stripFences (cs : List Char) : List Char :=
  let c1 := stripTokenAux "```json".data (cs.length + 1) cs
  stripTokenAux "```".data (c1.length + 1) c1

/-- Outcome of tier 1 of the quiz parser cascade (rag.py lines 296-301):
`accept` returns the parsed dict; `noMatch` means the brace regex found
nothing (tiers 1 and 2 are both skipped); `noKey` means the span parsed
but lacked a `questions` key (tier 2 is skipped — no exception was
raised); `typeErr` is an uncaught `TypeError` from `in` on a non-dict
(unreachable, since a parsed brace span is always a dict); `decodeErr`
is a `JSONDecodeError`, the only path into tier 2. -/
inductive T1 where
  | accept (j : Json) : T1
  | noMatch : T1
  | noKey : T1
  | typeErr : T1
  | decodeErr : T1

/-- Tier 1: parse the greedy brace span as JSON and accept if it has a
`questions` key. -/
def tier1 (cs : List Char) : T1 :=
  match greedySpan cs with
  | none => T1.noMatch
  | some span =>
    match jsonParse span with
    | none => T1.decodeErr
    | some qd =>
      match pyContains qd "questions" with
      | none => T1.typeErr
      | some true => T1.accept qd
      | some false => T1.noKey

/-- Tier 2 (rag.py lines 303-312): strip Markdown fences from the whole
response, re-parse, and accept on a `questions` key; any exception
(decode error or `TypeError`) is swallowed by the bare `except`. -/
def tier2 (cs : List Char) : Option Json :=
  match jsonParse (stripFences cs) with
  | some qd =>
    match pyContains qd "questions" with
    | some true => some qd
    | _ => none
  | none => none

/-- Lookahead of the tier-3 question regex,
`(?=\n(?:Question|Q\d+|\d+[.)]|$))` under MULTILINE, IGNORECASE and
DOTALL: a newline at `g` followed by `Question`, `Q` plus a digit, a
digit run plus `.` or `)`, or an end of line. -/
def t3Lookahead (cs : List Char) (g : Nat) : Bool :=
  match cs.get? g with
  | some c =>
    c == '\n' &&
      (icasePrefixAt cs (g + 1) "Question".data
       || (match cs.get? (g + 1) with
           | some c1 =>
             (c1.toLower == 'q') &&
               (match cs.get? (g + 2) with
                | some c2 => c2.isDigit
                | none => false)
           | none => false)
       || (let k := runLen Char.isDigit cs (g + 1)
           k != 0 &&
             (match cs.get? (g + 1 + k) with
              | some c2 => c2 == '.' || c2 == ')'
              | none => false))
       || (g + 1 == cs.length || cs.get? (g + 1) == some '\n'))
  | none => false

/-- Candidate end positions of a trailing `\s*`, in the backtracking order of the
greedy regex engine (longest first). -/
def wsEndsDesc (cs : List Char) (j : Nat) : List Nat :=
  let w := runLen isWsCh cs j
  (List.range (w + 1)).map (fun t => j + (w - t))

/-- Candidate prefix ends after the digit run of alternatives 1 and 2,
covering `[:.]?\s*`: the branch consuming the optional punctuation is
preferred, then the branch without it; within each, longer whitespace
first. -/
def tailCandidates (cs : List Char) (q : Nat) : List Nat :=
  (match cs.get? q with
   | some c => if c == ':' || c == '.' then wsEndsDesc cs (q + 1) else []
   | none => []) ++ wsEndsDesc cs q

/-- Prefix-end candidates of alternative 1, `Question\s*\d+[:.]?\s*`
(IGNORECASE), in backtracking order: the digit run backtracks from
longest to shortest, then the optional punctuation, then the trailing
whitespace.  The `\s*` before the digits cannot backtrack, as whitespace
and digits are disjoint. -/
def alt1Ends (cs : List Char) (p : Nat) : List Nat :=
  if icasePrefixAt cs p "Question".data then
    let a := p + 8
    let w := runLen isWsCh cs a
    let d0 := a + w
    let k := runLen Char.isDigit cs d0
    if k == 0 then []
    else ((List.range k).map (fun t => k - t)).flatMap (fun kk => tailCandidates cs (d0 + kk))
  else []

/-- Prefix-end candidates of alternative 2, `Q\d+[:.]?\s*` (IGNORECASE). -/
def alt2Ends (cs : List Char) (p : Nat) : List Nat :=
  match cs.get? p with
  | some c =>
    if c.toLower == 'q' then
      let k := runLen Char.isDigit cs (p + 1)
      if k == 0 then []
      else ((List.range k).map (fun t => k - t)).flatMap (fun kk => tailCandidates cs (p + 1 + kk))
    else []
  | none => []

/-- Prefix-end candidates of alternative 3, `^\d+[.)]\s*` under
MULTILINE: only at the start of the string or after a newline, with the
punctuation mandatory. -/
def alt3Ends (cs : List Char) (p : Nat) : List Nat :=
  if p == 0 || cs.get? (p - 1) == some '\n' then
    let k := runLen Char.isDigit cs p
    if k == 0 then []
    else ((List.range k).map (fun t => k - t)).flatMap (fun kk =>
      match cs.get? (p + kk) with
      | some c => if c == '.' || c == ')' then wsEndsDesc cs (p + kk + 1) else []
      | none => [])
  else []

/-- Lazy group `(.+?)` under DOTALL: the smallest end `g` in
`(pe, length]` at which the lookahead holds. -/
def lazyGroupEnd (cs : List Char) (pe : Nat) : Option Nat :=
  ((List.range (cs.length - pe)).map (fun t => pe + 1 + t)).find? (fun g => t3Lookahead cs g)

/-- One attempt of the tier-3 question regex anchored at `p`, returning
the span `(group start, group end)` of capture group 1 on success.
Prefix alternatives are tried in written order; for each candidate
prefix end the lazy group takes the shortest extent whose lookahead
holds. -/
def matchAt (cs : List Char) (p : Nat) : Option (Nat × Nat) :=
  (alt1Ends cs p ++ alt2Ends cs p ++ alt3Ends cs p).findSome? (fun pe =>
    match lazyGroupEnd cs pe with
    | some g => some (pe, g)
    | none => none)

/-- The `re.finditer` scan: the leftmost match wins, and scanning resumes at
the end of each match (the lookahead is zero-width, so a match ends at
its group end).  Every match ends strictly after the position it started
from, so fuel `length + 1` suffices. -/
def scanFrom (cs : List Char) : Nat → Nat → List (Nat × Nat)
  | _, 0 => []
  | p, Nat.succ f =>
    if cs.length ≤ p then []
    else
      match matchAt cs p with
      | some pr => pr :: scanFrom cs pr.2 f
      | none => scanFrom cs (p + 1) f

/-- All matches of the tier-3 question regex (rag.py lines 316-317). -/
def tier3Matches (cs : List Char) : List (Nat × Nat) :=
  scanFrom cs 0 (cs.length + 1)

/-- Capture group 1 of a match. -/
def sliceGroup (cs : List Char) (pr : Nat × Nat) : List Char :=
  (cs.drop pr.1).take (pr.2 - pr.1)

/-- Lookahead of the option regex `(?=\n[A-D][:.)]|$)` under MULTILINE:
either a newline followed by an option label, or an end-of-line
position (which already holds at every position directly before a
newline, subsuming the first alternative for mere existence). -/
def optLookahead (qt : List Char) (g : Nat) : Bool :=
  (match qt.get? g, qt.get? (g + 1), qt.get? (g + 2) with
   | some c0, some c1, some c2 =>
     c0 == '\n' && (c1 == 'A' || c1 == 'B' || c1 == 'C' || c1 == 'D') &&
       (c2 == ':' || c2 == '.' || c2 == ')')
   | _, _, _ => false)
  || g == qt.length || qt.get? g == some '\n'

/-- Lazy extension of the option regex group `(.+?)` (no DOTALL: the
group may not contain a newline): at each candidate end check the
lookahead, else consume one more non-newline character. -/
def lazyExtend (qt : List Char) : Nat → Nat → Bool
  | 0, _ => false
  | Nat.succ f, g =>
    if optLookahead qt g then true
    else
      match qt.get? g with
      | some c => if c == '\n' then false else lazyExtend qt f (g + 1)
      | none => false

/-- Start the lazy option group at `g0`: its first character must exist
and not be a newline. -/
def lazyFrom (qt : List Char) (g0 : Nat) : Bool :=
  match qt.get? g0 with
  | some c => if c == '\n' then false else lazyExtend qt (qt.length + 1) (g0 + 1)
  | none => false

/-- Truthiness of the option search, `re.search` with pattern
`r"([A-D])[:.)]\s*(.+?)(?=\n[A-D][:.)]|$)"` on the question text under
MULTILINE (rag.py line 322). -/
def optSearch (qt : List Char) : Bool :=
  (List.range qt.length).any (fun p =>
    match qt.get? p, qt.get? (p + 1) with
    | some c0, some c1 =>
      (c0 == 'A' || c0 == 'B' || c0 == 'C' || c0 == 'D') &&
        (c1 == ':' || c1 == '.' || c1 == ')') &&
        (wsEndsDesc qt (p + 2)).any (fun g0 => lazyFrom qt g0)
    | _, _ => false)

/-- The Python idiom splitting at the first newline,
`text.split("\n")[0]`. -/
def firstLine (cs : List Char) : List Char := cs.takeWhile (fun c => c != '\n')

/-- The question dict appended by tier 3 (rag.py lines 324-329):
placeholder options, `correct = "A"`, generic explanation. -/
def questionDict (q : List Char) : Json :=
  Json.obj [("question", Json.str (String.mk q)),
            ("options", Json.obj [("A", Json.str "Option A"), ("B", Json.str "Option B"),
                                  ("C", Json.str "Option C"), ("D", Json.str "Option D")]),
            ("correct", Json.str "A"),
            ("explanation", Json.str "See source material for details.")]

/-- Tier 3 (rag.py lines 315-329): take the first `n` regex matches; for
each whose stripped text contains an option-like line, emit a question
dict whose text is the first line of the stripped group. -/
def tier3Questions (cs : List Char) (n : Nat) : List Json :=
  ((tier3Matches cs).take n).filterMap (fun pr =>
    let qt := pyStrip (sliceGroup cs pr)
    if optSearch qt then some (questionDict (firstLine qt)) else none)

/-- Python `response_text[:500] + ("..." if len(response_text) > 500 else "")`
(rag.py line 345). -/
def truncResp (rt : String) : String :=
  String.mk (rt.data.take 500 ++ (if 500 < rt.data.length then "...".data else []))

/-- The tier-4 synthetic question (rag.py lines 335-347): fixed text and
options, `correct = "A"`, and the raw response truncated to 500
characters (plus an ellipsis) as explanation. -/
def fallbackQuestion (rt : String) : Json :=
  Json.obj [("question", Json.str "Quiz generated from your documents. Please review the content below."),
            ("options", Json.obj [("A", Json.str "Review the source materials"),
                                  ("B", Json.str "Check the uploaded documents"),
                                  ("C", Json.str "Refer to course notes"),
                                  ("D", Json.str "Consult with instructor")]),
            ("correct", Json.str "A"),
            ("explanation", Json.str (truncResp rt))]

/-- Tiers 3 and 4 of the cascade: the pattern-extracted questions if any
were found, else the single synthetic fallback question. -/
def quizTail (rt : String) (n : Nat) : Json :=
  let qs := tier3Questions rt.data n
  if qs.isEmpty then Json.obj [("questions", Json.arr [fallbackQuestion rt])]
  else Json.obj [("questions", Json.arr qs)]

/-- Python error values surfaced by the embedded operations.  The names
follow the taxonomy of the spec; the `String` payloads carry the underlying
message where one matters. -/
inductive PyErr where
  | apiKeyMissing : PyErr
  | contextsEmpty : PyErr
  | questionEmpty : PyErr
  | queryEmpty : PyErr
  | missingIndex : PyErr
  | dimMismatch (qdim d : Nat) : PyErr
  | emptyTexts : PyErr
  | apiCallFailed : PyErr
  | emptyResponse : PyErr
  | typeError : PyErr
  | dirNotFound : PyErr
  | noDocuments : PyErr
  | extractionError (msg : String) : PyErr
deriving DecidableEq

/-- The parser cascade of `generate_quiz` applied to the stripped
response text (rag.py lines 292-347).  `Except.error` is the uncaught
`TypeError` branch of tier 1, which is in fact unreachable. -/
def parseQuiz (rt : String) (n : Nat) : Except PyErr Json :=
  match tier1 rt.data with
  | T1.accept j => Except.ok j
  | T1.typeErr => Except.error PyErr.typeError
  | T1.noMatch => Except.ok (quizTail rt n)
  | T1.noKey => Except.ok (quizTail rt n)
  | T1.decodeErr =>
    match tier2 rt.data with
    | some j => Except.ok j
    | none => Except.ok (quizTail rt n)

/-- Scan for the matching close of a brace opened at depth `depth ≥ 1`,
counting nested braces.  Modelled from the spec: the tier-1
description of the spec locates "the first balanced `\x7b...\x7d` span", which the
code does not implement; this is the spec-side definition used to
compare the two (claim C4). -/
def spanBal (depth : Nat) : List Char → Option (List Char)
  | [] => none
  | c :: cs =>
    if c = rbrace then
      if depth = 1 then some [c] else (spanBal (depth - 1) cs).map (fun t => c :: t)
    else if c = lbrace then (spanBal (depth + 1) cs).map (fun t => c :: t)
    else (spanBal depth cs).map (fun t => c :: t)

/-- Modelled from the spec: the first balanced `\x7b...\x7d` span of the
text (spec §4.6 step 1), starting at the first opening brace. -/
def firstBalancedSpan : List Char → Option (List Char)
  | [] => none
  | c :: cs =>
    if c = lbrace then (spanBal 1 cs).map (fun t => c :: t)
    else firstBalancedSpan cs

/-- Modelled from the spec: tier 1 as the spec describes it — parse
exactly the first balanced brace span, accept iff it parses and
contains a `questions` key. -/
def specTier1 (cs : List Char) : Option Json :=
  match firstBalancedSpan cs with
  | none => none
  | some sp =>
    match jsonParse sp with
    | none => none
    | some qd =>
      match pyContains qd "questions" with
      | some true => some qd
      | _ => none

/-- Code-independent description of the span the tier-1 regex matches:
`i` is the index of the first opening brace, `j` the index of the last
closing brace, `i < j`, and the span is the inclusive slice between
them. -/
def GreedySpanSpec (cs : List Char) (sp : List Char) : Prop :=
  ∃ i j, i < j ∧ cs.get? i = some lbrace ∧ (∀ k, k < i → cs.get? k ≠ some lbrace) ∧
    cs.get? j = some rbrace ∧ (∀ k, j < k → cs.get? k ≠ some rbrace) ∧
    sp = (cs.drop i).take (j - i + 1)

/-- The QuizQuestion invariant (spec §3): the options mapping has
exactly the labels A, B, C, D and `correct` is one of them. -/
def isQuizQuestion (j : Json) : Bool :=
  match j with
  | Json.obj fs =>
    (match lookupField fs "options" with
     | some (Json.obj os) =>
       os.length == 4 && (os.any (fun p => p.1 == "A")) && (os.any (fun p => p.1 == "B")) &&
         (os.any (fun p => p.1 == "C")) && (os.any (fun p => p.1 == "D"))
     | _ => false) &&
    (match lookupField fs "correct" with
     | some (Json.str c) => c == "A" || c == "B" || c == "C" || c == "D"
     | _ => false)
  | _ => false

/-- The Quiz guarantee of spec §8: a `questions` list of length at least
one, every element satisfying the QuizQuestion invariant. -/
def quizOk (j : Json) : Bool :=
  match j with
  | Json.obj fs =>
    match lookupField fs "questions" with
    | some (Json.arr qs) => !qs.isEmpty && qs.all isQuizQuestion
    | _ => false
  | _ => false

/-- The fenced completion response of the spec scenario discussed in
claim C5: a Markdown code fence around a JSON quiz with one complete
question. -/
def c5Response : String :=
  "```json\n\x7b\"questions\": [\x7b\"question\": \"What is 2+2?\", \"options\": \x7b\"A\": \"4\", \"B\": \"3\", \"C\": \"5\", \"D\": \"6\"\x7d, \"correct\": \"A\", \"explanation\": \"Basic arithmetic.\"\x7d]\x7d\n```"

/-- The JSON value the fenced response of claim C5 parses to. -/
def c5Parsed : Json :=
  Json.obj [("questions", Json.arr [Json.obj
    [("question", Json.str "What is 2+2?"),
     ("options", Json.obj [("A", Json.str "4"), ("B", Json.str "3"),
                           ("C", Json.str "5"), ("D", Json.str "6")]),
     ("correct", Json.str "A"),
     ("explanation", Json.str "Basic arithmetic.")]])]

/-- A chunk / metadata entry: `\x7b"id", "text", "source"\x7d`
(ingest.py lines 72-78; rag.py metadata list). -/
structure Chunk where
  id : String
  text : String
  source : String
deriving DecidableEq

/-- Embedding vectors (rows of the float32 matrix), modelled over `Rat`. -/
abbrev Vec := List Rat

/-- A search result: a copy of a metadata entry plus its score
(rag.py lines 133-139). -/
structure SearchResult where
  id : String
  text : String
  source : String
  score : Rat
deriving DecidableEq

/-- The persisted state of the system: the FAISS index (its dimension
`d` and its vectors in insertion order) together with the metadata
list.  `ntotal` is `vectors.length`. -/
structure IndexState where
  d : Nat
  vectors : List Vec
  metadata : List Chunk

/-- Model of `Embedder.encode` (rag.py lines 50-52, 73-77): raise on an empty or
all-blank batch, else one row per input in input order.  The
sentence-transformers model is the external parameter `embed`. -/
def Embedder.encode (embed : String → Vec) (texts : List String) : Except PyErr (List Vec) :=
  if texts.isEmpty || texts.all (fun t => pyStrip t.data = []) then Except.error PyErr.emptyTexts
  else Except.ok (texts.map embed)

/-- Model of `build_index` (rag.py lines 100-108): embed the chunk texts, create
a flat index of dimension `embeddings.shape[1]`, add the rows in order,
and persist the chunk dicts themselves as the metadata list. -/
def build_index (embed : String → Vec) (chunks : List Chunk) : Except PyErr IndexState :=
  match Embedder.encode embed (chunks.map (fun c => c.text)) with
  | Except.error e => Except.error e
  | Except.ok embeddings =>
    Except.ok ⟨(embeddings.headD []).length, embeddings, chunks⟩

/-- Inner product of two vectors. -/
def innerProd (a b : Vec) : Rat :=
  ((a.zip b).map (fun p => p.1 * p.2)).sum

/-- Score every stored vector against the query, tagged with its offset
(offsets counted from `i`). -/
def scoreList (q : Vec) : List Vec → Nat → List (Nat × Rat)
  | [], _ => []
  | v :: vs, i => (i, innerProd q v) :: scoreList q vs (i + 1)

/-- Strict ranking used by the flat inner-product index: higher score
first, ties broken by lower offset. -/
def rankBefore (x y : Nat × Rat) : Bool :=
  y.2 < x.2 || (x.2 == y.2 && x.1 < y.1)

/-- Insertion into a ranked list. -/
def rankInsert (x : Nat × Rat) : List (Nat × Rat) → List (Nat × Rat)
  | [] => [x]
  | y :: ys => if rankBefore x y then x :: y :: ys else y :: rankInsert x ys

/-- Sort scored offsets by rank (insertion sort). -/
def sortPairs (l : List (Nat × Rat)) : List (Nat × Rat) :=
  l.foldr rankInsert []

/-- Model of `index.search(query_vec, k)` of the FAISS `IndexFlatIP`,
from the library contract the code relies on (spec §4.4): the `k`
highest-inner-product offsets, descending, ties to the lower offset.
The caller always passes `k ≤ ntotal`, so no `-1` padding occurs. -/
def indexSearch (vectors : List Vec) (q : Vec) (k : Nat) : List (Nat × Rat) :=
  (sortPairs (scoreList q vectors 0)).take k

/-- The result-assembly loop of `search` (rag.py lines 133-139): offsets
outside the metadata list are skipped, others yield a copy of
`metadata[idx]` with the score attached. -/
def joinResults (metadata : List Chunk) (pairs : List (Nat × Rat)) : List SearchResult :=
  pairs.filterMap (fun p =>
    match metadata.get? p.1 with
    | some m => some ⟨m.id, m.text, m.source, p.2⟩
    | none => none)

/-- Model of `search` (rag.py lines 111-141): reject a blank query, load the
persisted index (`none` models missing artifacts), embed the query,
reject a dimension mismatch, search with `min(top_k, ntotal)`, and join
offsets against the metadata list. -/
def search (embed : String → Vec) (st : Option IndexState) (query : String) (top_k : Nat) :
    Except PyErr (List SearchResult) :=
  if pyStrip query.data = [] then Except.error PyErr.queryEmpty
  else
    match st with
    | none => Except.error PyErr.missingIndex
    | some idx =>
      match Embedder.encode embed [query] with
      | Except.error e => Except.error e
      | Except.ok qvs =>
        let qv := qvs.headD []
        if qv.length ≠ idx.d then Except.error (PyErr.dimMismatch qv.length idx.d)
        else Except.ok (joinResults idx.metadata
          (indexSearch idx.vectors qv (min top_k idx.vectors.length)))

/-- A file met during the directory walk of `iter_documents`.  The
`extract` field is the outcome of the format-specific loader
(`read_text` / `load_text_from_pdf` / `load_text_from_docx` /
`load_text_from_pptx`): the extracted text, or the exception it
raised. -/
structure SrcFile where
  name : String
  suffix : String
  isDir : Bool
  extract : Except String String

/-- An extracted `(source_name, text)` pair yielded by
`iter_documents`. -/
structure RawDoc where
  name : String
  text : String
deriving DecidableEq

/-- Python `str.lower()` (ASCII case folding, character by character). -/
def strLower (s : String) : String := String.mk (s.data.map Char.toLower)

/-- The suffixes with an extraction branch in `iter_documents`
(ingest.py lines 50-58); anything else is silently skipped. -/
def supportedSuffix (s : String) : Bool :=
  s == ".txt" || s == ".md" || s == ".pdf" || s == ".docx" || s == ".doc" ||
    s == ".pptx" || s == ".ppt"

/-- Model of `iter_documents` (ingest.py lines 46-58) as consumed by
`list(...)`: directories and unrecognised suffixes are skipped; for a
supported file the result of the loader is yielded, and a loader exception
propagates, aborting the whole iteration. -/
def iter_documents : List SrcFile → Except PyErr (List RawDoc)
  | [] => Except.ok []
  | f :: fs =>
    if f.isDir then iter_documents fs
    else if supportedSuffix (strLower f.suffix) then
      match f.extract with
      | Except.error msg => Except.error (PyErr.extractionError msg)
      | Except.ok text =>
        match iter_documents fs with
        | Except.error e => Except.error e
        | Except.ok rest => Except.ok (⟨f.name, text⟩ :: rest)
    else iter_documents fs

/-- Model of `chunk_documents` (ingest.py lines 61-79): blank documents are
skipped; each remaining document contributes its splitter pieces in
order, stripped, with ids `source_i` from ordinal 0.  The langchain
splitter is the external parameter `split`. -/
def chunk_documents (split : String → List String) (docs : List RawDoc) : List Chunk :=
  docs.flatMap (fun d =>
    if pyStrip d.text.data = [] then []
    else (split d.text).enum.map (fun p =>
      ⟨d.name ++ "_" ++ toString p.1, String.mk (pyStrip p.2.data), d.name⟩))

/-- Model of `ingest` (ingest.py lines 82-91): fail if the directory is missing,
collect the documents (propagating any extraction failure), fail if
none were found, chunk them and build the index; on success the chunk
count is reported. -/
def ingest (split : String → List String) (embed : String → Vec) (dirExists : Bool)
    (files : List SrcFile) : Except PyErr Nat :=
  if !dirExists then Except.error PyErr.dirNotFound
  else
    match iter_documents files with
    | Except.error e => Except.error e
    | Except.ok docs =>
      if docs.isEmpty then Except.error PyErr.noDocuments
      else
        let chunks := chunk_documents split docs
        match build_index embed chunks with
        | Except.error e => Except.error e
        | Except.ok _ => Except.ok chunks.length

/-- The request that would be handed to the completion service: system
message, user prompt, temperature.  An operation that returns an
`Except.error` instead never construed such a request, i.e. never
called the service. -/
structure GroqRequest where
  system : String
  user : String
  temperature : Rat
deriving DecidableEq

/-- Model of `build_prompt` (rag.py lines 147-156). -/
def build_prompt (question : String) (contexts : List Chunk) : String :=
  let context_block :=
    String.intercalate "\n\n" (contexts.map (fun c => "[Source: " ++ c.source ++ "] " ++ c.text))
  "You are a helpful Smart Campus Assistant. Use only the context to answer. " ++
    "If the answer is not in the context, say you do not know.\n\n" ++
    "Context:\n" ++ context_block ++ "\n\nQuestion: " ++ question ++ "\nAnswer:"

/-- Model of `generate_answer` up to the external call (rag.py lines
162-187):
the guard order is API key, blank question, empty contexts; the success
value is the request that is then sent. -/
def generate_answer (apiKeySet : Bool) (question : String) (contexts : List Chunk) :
    Except PyErr GroqRequest :=
  if !apiKeySet then Except.error PyErr.apiKeyMissing
  else if pyStrip question.data = [] then Except.error PyErr.questionEmpty
  else if contexts.isEmpty then Except.error PyErr.contextsEmpty
  else Except.ok ⟨"You are a concise Smart Campus Assistant.",
    build_prompt question contexts, 1 / 5⟩

/-- Model of `summarize_document` up to the external call (rag.py lines
200-229). -/
def summarize_document (apiKeySet : Bool) (contexts : List Chunk) (max_length : Nat) :
    Except PyErr GroqRequest :=
  if !apiKeySet then Except.error PyErr.apiKeyMissing
  else if contexts.isEmpty then Except.error PyErr.contextsEmpty
  else
    let full_text := String.intercalate "\n\n" (contexts.map (fun c => c.text))
    let prompt :=
      "Please provide a comprehensive summary of the following document(s). " ++
        "Focus on key points, main ideas, and important details. " ++
        "Keep the summary concise but informative (approximately " ++ toString max_length ++
        " words).\n\nDocument content:\n" ++ full_text ++ "\n\nSummary:"
    Except.ok ⟨"You are an expert at summarizing educational content. Provide clear, concise summaries.",
      prompt, 3 / 10⟩

/-- Model of `generate_quiz` up to the external call (rag.py lines
242-282):
guards for the API key and empty contexts, then the quiz prompt over
the joined context texts (truncated to 6000 characters), with the
optional topic instruction. -/
def generate_quiz_request (apiKeySet : Bool) (contexts : List Chunk) (num_questions : Nat)
    (difficulty : String) (topic : Option String) : Except PyErr GroqRequest :=
  if !apiKeySet then Except.error PyErr.apiKeyMissing
  else if contexts.isEmpty then Except.error PyErr.contextsEmpty
  else
    let full_text := String.intercalate "\n\n" (contexts.map (fun c => c.text))
    let topic_instruction :=
      match topic with
      | some t =>
        if pyStrip t.data ≠ [] then
          "IMPORTANT: Focus ALL questions on the topic: \x27" ++ t ++
            "\x27. Every question must be directly related to this topic.\n\n"
        else ""
      | none => ""
    let prompt :=
      "You are an expert quiz creator. Generate exactly " ++ toString num_questions ++ " " ++
        difficulty ++ " difficulty multiple-choice questions " ++
        "based ONLY on the following content. " ++ topic_instruction ++
        "Make sure questions are relevant and test understanding of the material.\n\n" ++
        "For each question, you MUST provide:\n" ++
        "1. A clear, specific question text\n" ++
        "2. Exactly four answer options labeled A, B, C, and D\n" ++
        "3. The correct answer (must be A, B, C, or D)\n" ++
        "4. A brief explanation of why the answer is correct\n\n" ++
        "IMPORTANT: Format your response as valid JSON only, with this exact structure:\n" ++
        "\x7b\"questions\": [\x7b\"question\": \"Your question here\", \"options\": \x7b\"A\": \"Option A text\", \"B\": \"Option B text\", \"C\": \"Option C text\", \"D\": \"Option D text\"\x7d, \"correct\": \"A\", \"explanation\": \"Why this is correct\"\x7d]\x7d\n\n" ++
        "Content to create questions from:\n" ++ String.mk (full_text.data.take 6000) ++
        "\n\nGenerate exactly " ++ toString num_questions ++ " questions as JSON:"
    Except.ok ⟨"You are an expert at creating educational quizzes. Generate clear, well-structured questions.",
      prompt, 7 / 10⟩

/-- Full `generate_quiz` (rag.py lines 242-347).  `completion` is the
behaviour of the external service for the request: an exception
(`Except.error`), or the returned message content (`""` standing for
the falsy no-content case of Python).  The content is stripped and handed to
the parser cascade. -/
def generate_quiz (apiKeySet : Bool) (contexts : List Chunk) (num_questions : Nat)
    (difficulty : String) (topic : Option String) (completion : Except Unit String) :
    Except PyErr Json :=
  match generate_quiz_request apiKeySet contexts num_questions difficulty topic with
  | Except.error e => Except.error e
  | Except.ok _ =>
    match completion with
    | Except.error _ => Except.error PyErr.apiCallFailed
    | Except.ok content =>
      if content = "" then Except.error PyErr.emptyResponse
      else parseQuiz (String.mk (pyStrip content.data)) num_questions

theorem isQuizQuestion_questionDict (q : List Char) :
    isQuizQuestion (questionDict q) = true := rfl

theorem isQuizQuestion_fallbackQuestion (rt : String) :
    isQuizQuestion (fallbackQuestion rt) = true := rfl

theorem tier3Questions_shape {cs : List Char} {n : Nat} {j : Json}
    (h : j ∈ tier3Questions cs n) : ∃ q, j = questionDict q := by
  unfold tier3Questions at h
  rw [List.mem_filterMap] at h
  obtain ⟨pr, _, hpr⟩ := h
  by_cases ho : optSearch (pyStrip (sliceGroup cs pr))
  · simp only [ho, if_true] at hpr
    exact ⟨_, (Option.some.injEq _ _ ▸ hpr).symm⟩
  · simp only [ho, if_false] at hpr
    cases hpr

theorem quizOk_quizTail (rt : String) (n : Nat) : quizOk (quizTail rt n) = true := by
  unfold quizTail
  by_cases h : (tier3Questions rt.data n).isEmpty
  · rw [if_pos h]; rfl
  · rw [if_neg h]
    show (!(tier3Questions rt.data n).isEmpty && (tier3Questions rt.data n).all isQuizQuestion) = true
    rw [Bool.and_eq_true, Bool.not_eq_true', List.all_eq_true]
    refine ⟨by simpa using h, fun j hj => ?_⟩
    obtain ⟨q, rfl⟩ := tier3Questions_shape hj
    exact isQuizQuestion_questionDict q

theorem parseQuiz_eq_quizTail (rt : String) (n : Nat)
    (h1 : ∀ j, tier1 rt.data ≠ T1.accept j) (h2 : tier1 rt.data ≠ T1.typeErr)
    (h3 : tier2 rt.data = none) :
    parseQuiz rt n = Except.ok (quizTail rt n) := by
  unfold parseQuiz
  cases htier : tier1 rt.data with
  | accept j => exact absurd htier (h1 j)
  | typeErr => exact absurd htier h2
  | noMatch => rfl
  | noKey => rfl
  | decodeErr => rw [h3]

theorem generate_quiz_request_ok (a : Chunk) (l : List Chunk) (n : Nat) (difficulty : String)
    (topic : Option String) :
    ∃ r, generate_quiz_request true (a :: l) n difficulty topic = Except.ok r :=
  ⟨_, rfl⟩

/-- Claim C1, counterexample: the completion output
`\x7b"questions": []\x7d` is well-formed JSON with a `questions` key, so
tier 1 returns it verbatim — `generate_quiz` hands back a quiz whose
questions list is empty, violating the claimed `len(questions) ≥ 1`
guarantee. -/
theorem c1_counterexample :
    generate_quiz true [⟨"doc_0", "some text", "doc"⟩] 5 "medium" none
        (Except.ok "\x7b\"questions\": []\x7d") =
      Except.ok (Json.obj [("questions", Json.arr [])]) ∧
    quizOk (Json.obj [("questions", Json.arr [])]) = false :=
  ⟨rfl, rfl⟩

/-- Claim C1, amended: an *empty* completion output never yields a quiz
at all — `generate_quiz` raises the empty-response error before the
parser cascade runs; for any *non-empty* completion output from which
neither JSON tier accepts a value — tier 1 does not accept (nor hit its
unreachable `TypeError` branch) and tier 2 does not accept —
`generate_quiz` returns a quiz with at least one question, every
question satisfying the QuizQuestion invariant.  A JSON value accepted
by tier 1 or tier 2 is returned without any validation. -/
theorem c1_amended (a : Chunk) (l : List Chunk) (n : Nat) (difficulty : String)
    (topic : Option String) (content : String)
    (h1 : ∀ j, tier1 (pyStrip content.data) ≠ T1.accept j)
    (h2 : tier1 (pyStrip content.data) ≠ T1.typeErr)
    (h3 : tier2 (pyStrip content.data) = none) :
    generate_quiz true (a :: l) n difficulty topic (Except.ok "") =
      Except.error PyErr.emptyResponse ∧
    (content ≠ "" →
      ∃ j, generate_quiz true (a :: l) n difficulty topic (Except.ok content) =
          Except.ok j ∧ quizOk j = true) := by
  constructor
  · rfl
  · intro hne
    refine ⟨quizTail (String.mk (pyStrip content.data)) n, ?_, quizOk_quizTail _ n⟩
    obtain ⟨r, hr⟩ := generate_quiz_request_ok a l n difficulty topic
    unfold generate_quiz
    rw [hr]
    show (if content = "" then Except.error PyErr.emptyResponse
          else parseQuiz ⟨pyStrip content.data⟩ n) =
      Except.ok (quizTail ⟨pyStrip content.data⟩ n)
    rw [if_neg hne]
    exact parseQuiz_eq_quizTail _ n h1 h2 h3

/-- Claim C1, witness for the amended theorem: the empty completion
raises the empty-response error, and a non-empty completion with no
brace pair at all yields a valid fallback quiz. -/
theorem c1_amended_witness :
    generate_quiz true [⟨"a", "t", "s"⟩] 2 "medium" none (Except.ok "") =
      Except.error PyErr.emptyResponse ∧
    ∃ j, generate_quiz true [⟨"a", "t", "s"⟩] 2 "medium" none
        (Except.ok "no json here") = Except.ok j ∧ quizOk j = true := by
  have e1 : tier1 (pyStrip "no json here".data) = T1.noMatch := rfl
  have h := c1_amended ⟨"a", "t", "s"⟩ [] 2 "medium" none "no json here"
    (fun j hx => by rw [e1] at hx; cases hx)
    (fun hx => by rw [e1] at hx; cases hx)
    rfl
  exact ⟨h.1, h.2 (by decide)⟩

/-- Claim C6: whenever tiers 1 through 3 recover no questions,
the cascade of `generate_quiz` returns exactly one synthetic question — the
fixed review-your-materials question with `correct = "A"` — whose
explanation embeds the raw response truncated to 500 characters plus an
ellipsis, hence to a bounded length (at most 503 characters). -/
theorem c6_tier4 (rt : String) (n : Nat)
    (h1 : ∀ j, tier1 rt.data ≠ T1.accept j) (h2 : tier1 rt.data ≠ T1.typeErr)
    (h3 : tier2 rt.data = none) (h4 : tier3Questions rt.data n = []) :
    parseQuiz rt n = Except.ok (Json.obj [("questions", Json.arr [fallbackQuestion rt])]) ∧
    fallbackQuestion rt = Json.obj
      [("question", Json.str "Quiz generated from your documents. Please review the content below."),
       ("options", Json.obj [("A", Json.str "Review the source materials"),
                             ("B", Json.str "Check the uploaded documents"),
                             ("C", Json.str "Refer to course notes"),
                             ("D", Json.str "Consult with instructor")]),
       ("correct", Json.str "A"),
       ("explanation", Json.str (truncResp rt))] ∧
    (truncResp rt).length ≤ 503 := by
  refine ⟨?_, rfl, ?_⟩
  · rw [parseQuiz_eq_quizTail rt n h1 h2 h3]
    unfold quizTail
    rw [h4]
    rfl
  · show (rt.data.take 500 ++ (if 500 < rt.data.length then "...".data else [])).length ≤ 503
    rw [List.length_append]
    have h5 : (rt.data.take 500).length ≤ 500 := by
      rw [List.length_take]; omega
    have h6 : (if 500 < rt.data.length then "...".data else []).length ≤ 3 := by
      split
      · decide
      · simp
    omega

/-- Claim C6, witness: three lines of unrelated prose make every tier
fail, and the synthetic single-question fallback fires. -/
theorem c6_witness :
    parseQuiz "The sky is blue.\nWater is wet.\nBirds can fly." 3 =
      Except.ok (Json.obj [("questions",
        Json.arr [fallbackQuestion "The sky is blue.\nWater is wet.\nBirds can fly."])]) := by
  have e1 : tier1 ("The sky is blue.\nWater is wet.\nBirds can fly." : String).data = T1.noMatch := rfl
  exact (c6_tier4 "The sky is blue.\nWater is wet.\nBirds can fly." 3
    (fun j h => by rw [e1] at h; cases h)
    (fun h => by rw [e1] at h; cases h)
    rfl rfl).1

theorem lastIdxOf_none (c : Char) (cs : List Char) :
    lastIdxOf c cs = none ↔ c ∉ cs := by
  induction cs with
  | nil => simp [lastIdxOf]
  | cons x xs ih =>
    unfold lastIdxOf
    cases h : lastIdxOf c xs with
    | some k =>
      simp only [List.mem_cons]
      constructor
      · intro hh; cases hh
      · intro hh
        exact absurd (by
          have : c ∈ xs := by
            by_contra hmem
            rw [← ih] at hmem
            rw [h] at hmem
            cases hmem
          exact this) (fun hc => hh (Or.inr hc))
    | none =>
      by_cases hx : x = c
      · simp [hx]
      · simp only [List.mem_cons]
        rw [if_neg hx]
        constructor
        · intro _ hh
          rcases hh with hh | hh
          · exact hx hh.symm
          · exact (ih.mp h) hh
        · intro _; rfl

theorem lastIdxOf_some (c : Char) (cs : List Char) (k : Nat)
    (h : lastIdxOf c cs = some k) :
    cs.get? k = some c ∧ ∀ m, k < m → cs.get? m ≠ some c := by
  induction cs generalizing k with
  | nil => cases h
  | cons x xs ih =>
    unfold lastIdxOf at h
    cases h2 : lastIdxOf c xs with
    | some k' =>
      rw [h2] at h
      have hk : k = k' + 1 := by
        have := h
        simp only [Option.some.injEq] at this
        omega
      subst hk
      obtain ⟨ha, hb⟩ := ih k' h2
      refine ⟨by simpa using ha, ?_⟩
      intro m hm
      cases m with
      | zero => omega
      | succ mm =>
        have : k' < mm := by omega
        simpa using hb mm this
    | none =>
      rw [h2] at h
      by_cases hx : x = c
      · rw [if_pos hx] at h
        have hk : k = 0 := by
          simp only [Option.some.injEq] at h
          omega
        subst hk
        refine ⟨by simpa using hx, ?_⟩
        intro m hm
        cases m with
        | zero => omega
        | succ mm =>
          simp only [List.get?_cons_succ]
          intro hcon
          have : c ∈ xs := List.get?_mem hcon
          exact (lastIdxOf_none c xs).mp h2 this
      · rw [if_neg hx] at h
        cases h

theorem lastOccUnique {c : Char} {cs : List Char} {k1 k2 : Nat}
    (h1a : cs.get? k1 = some c) (h1b : ∀ m, k1 < m → cs.get? m ≠ some c)
    (h2a : cs.get? k2 = some c) (h2b : ∀ m, k2 < m → cs.get? m ≠ some c) :
    k1 = k2 := by
  by_contra hne
  rcases Nat.lt_or_ge k1 k2 with hlt | hge
  · exact h1b k2 hlt h2a
  · have : k2 < k1 := by omega
    exact h2b k1 this h1a

theorem greedySpan_iff (cs sp : List Char) :
    greedySpan cs = some sp ↔ GreedySpanSpec cs sp := by
  induction cs generalizing sp with
  | nil =>
    simp [greedySpan, GreedySpanSpec]
  | cons x xs ih =>
    unfold greedySpan
    by_cases hx : x = lbrace
    · rw [if_pos hx]
      cases h : lastIdxOf rbrace xs with
      | some k =>
        obtain ⟨hka, hkb⟩ := lastIdxOf_some rbrace xs k h
        constructor
        · intro hsp
          have hsp2 : sp = x :: xs.take (k + 1) := by
            simpa using hsp.symm
          refine ⟨0, k + 1, by omega, by simpa using hx, by omega, ?_, ?_, ?_⟩
          · simpa using hka
          · intro m hm
            cases m with
            | zero => omega
            | succ mm =>
              have : k < mm := by omega
              simpa using hkb mm this
          · simpa using hsp2
        · rintro ⟨i, j, hij, hia, hib, hja, hjb, hsp⟩
          have hi0 : i = 0 := by
            by_contra hne
            exact hib 0 (by omega) (by simpa using hx)
          subst hi0
          obtain ⟨jj, rfl⟩ : ∃ jj, j = jj + 1 := ⟨j - 1, by omega⟩
          have hja' : xs.get? jj = some rbrace := by simpa using hja
          have hjb' : ∀ m, jj < m → xs.get? m ≠ some rbrace := by
            intro m hm
            have := hjb (m + 1) (by omega)
            simpa using this
          have : jj = k := lastOccUnique hja' hjb' hka hkb
          subst this
          simp only [Option.some.injEq]
          rw [hsp]
          simp [List.take_succ_cons]
      | none =>
        constructor
        · intro hsp; cases hsp
        · rintro ⟨i, j, hij, hia, hib, hja, hjb, hsp⟩
          have hi0 : i = 0 := by
            by_contra hne
            exact hib 0 (by omega) (by simpa using hx)
          subst hi0
          obtain ⟨jj, rfl⟩ : ∃ jj, j = jj + 1 := ⟨j - 1, by omega⟩
          have hja' : xs.get? jj = some rbrace := by simpa using hja
          exact absurd (List.get?_mem hja') ((lastIdxOf_none rbrace xs).mp h)
    · rw [if_neg hx]
      rw [ih]
      constructor
      · rintro ⟨i, j, hij, hia, hib, hja, hjb, hsp⟩
        refine ⟨i + 1, j + 1, by omega, by simpa using hia, ?_, by simpa using hja, ?_, ?_⟩
        · intro k hk
          cases k with
          | zero =>
            intro hcon
            exact hx (by simpa using hcon)
          | succ kk =>
            have : kk < i := by omega
            simpa using hib kk this
        · intro m hm
          cases m with
          | zero => omega
          | succ mm =>
            have : j < mm := by omega
            simpa using hjb mm this
        · have harith : j + 1 - (i + 1) = j - i := by omega
          rw [harith]
          simpa using hsp
      · rintro ⟨i, j, hij, hia, hib, hja, hjb, hsp⟩
        have hi0 : i ≠ 0 := by
          intro hi
          subst hi
          exact hx (by simpa using hia)
        obtain ⟨ii, rfl⟩ : ∃ ii, i = ii + 1 := ⟨i - 1, by omega⟩
        obtain ⟨jj, rfl⟩ : ∃ jj, j = jj + 1 := ⟨j - 1, by omega⟩
        refine ⟨ii, jj, by omega, by simpa using hia, ?_, by simpa using hja, ?_, ?_⟩
        · intro k hk
          have := hib (k + 1) (by omega)
          simpa using this
        · intro m hm
          have := hjb (m + 1) (by omega)
          simpa using this
        · have harith : jj + 1 - (ii + 1) = jj - ii := by omega
          rw [harith] at hsp
          simpa using hsp

/-- Claim C4, counterexample: on `\x7b"questions": []\x7d \x7d` the
spec-described tier 1 (first *balanced* brace span) accepts, but the
tier 1 of the code fails with a decode error, because the regex span runs
greedily from the first opening brace to the *last* closing brace,
which here adds a stray trailing brace and breaks the JSON. -/
theorem c4_counterexample :
    tier1 "\x7b\"questions\": []\x7d \x7d".data = T1.decodeErr ∧
    specTier1 "\x7b\"questions\": []\x7d \x7d".data =
      some (Json.obj [("questions", Json.arr [])]) :=
  ⟨rfl, rfl⟩

/-- Claim C4, amended: tier 1 locates the span running from the first
`\x7b` to the last `\x7d` of the raw response (the leftmost-greedy
match of the brace regex), parses exactly that span as JSON, and
accepts the result if and only if it parses and contains a `questions`
key; an accepted value is returned by the cascade unchanged. -/
theorem c4_amended (rt : String) (n : Nat) (q : Json) :
    (tier1 rt.data = T1.accept q ↔
      ∃ sp, GreedySpanSpec rt.data sp ∧ jsonParse sp = some q ∧
        pyContains q "questions" = some true) ∧
    (tier1 rt.data = T1.accept q → parseQuiz rt n = Except.ok q) := by
  constructor
  · constructor
    · intro h
      unfold tier1 at h
      cases hg : greedySpan rt.data with
      | none => rw [hg] at h; cases h
      | some sp =>
        rw [hg] at h
        dsimp only at h
        cases hj : jsonParse sp with
        | none => rw [hj] at h; cases h
        | some qd =>
          rw [hj] at h
          dsimp only at h
          cases hc : pyContains qd "questions" with
          | none => rw [hc] at h; cases h
          | some b =>
            rw [hc] at h
            cases b with
            | false => exact T1.noConfusion h
            | true =>
              have hq : qd = q := T1.accept.inj h
              subst hq
              exact ⟨sp, (greedySpan_iff _ _).mp hg, hj, hc⟩
    · rintro ⟨sp, hspec, hj, hc⟩
      have hg : greedySpan rt.data = some sp := (greedySpan_iff _ _).mpr hspec
      unfold tier1
      rw [hg]
      dsimp only
      rw [hj]
      dsimp only
      rw [hc]
  · intro h
    unfold parseQuiz
    rw [h]

/-- Claim C4, witness for the amended theorem: a response with prose
around a single JSON object is accepted at tier 1 and returned
unchanged. -/
theorem c4_witness :
    parseQuiz "xx\x7b\"questions\": [1]\x7d" 4 =
      Except.ok (Json.obj [("questions", Json.arr [Json.num "1"])]) :=
  (c4_amended "xx\x7b\"questions\": [1]\x7d" 4
    (Json.obj [("questions", Json.arr [Json.num "1"])])).2 rfl

/-- Claim C5, counterexample: on the fenced completion response the
tier 1 of the code *accepts* (the brace regex span excludes the fence
markers), contradicting the claim that tier 1 fails on fence markers
and tier 2 accepts. -/
theorem c5_counterexample : tier1 c5Response.data = T1.accept c5Parsed := rfl

/-- Claim C5, amended: for the fenced completion response
` ```json\n\x7b"questions": [...]\x7d\n``` ` tier 1 already accepts —
the greedy brace span never contains the fence markers — and the
cascade returns its value, so tier 2 is never consulted; the tier-2
cleaning step would also have accepted it had it been reached. -/
theorem c5_amended :
    parseQuiz c5Response 5 = Except.ok c5Parsed ∧
    tier1 c5Response.data = T1.accept c5Parsed ∧
    tier2 c5Response.data = some c5Parsed :=
  ⟨rfl, rfl, rfl⟩

theorem length_rankInsert (x : Nat × Rat) (l : List (Nat × Rat)) :
    (rankInsert x l).length = l.length + 1 := by
  induction l with
  | nil => rfl
  | cons y ys ih =>
    unfold rankInsert
    split
    · rfl
    · simp [ih]

theorem length_sortPairs (l : List (Nat × Rat)) : (sortPairs l).length = l.length := by
  induction l with
  | nil => rfl
  | cons x xs ih =>
    show (rankInsert x (sortPairs xs)).length = xs.length + 1
    rw [length_rankInsert, ih]

theorem mem_rankInsert {x y : Nat × Rat} {l : List (Nat × Rat)} :
    y ∈ rankInsert x l ↔ y = x ∨ y ∈ l := by
  induction l with
  | nil => simp [rankInsert]
  | cons z zs ih =>
    unfold rankInsert
    split
    · simp only [List.mem_cons]
    · simp only [List.mem_cons, ih]
      tauto

theorem mem_sortPairs {y : Nat × Rat} {l : List (Nat × Rat)} :
    y ∈ sortPairs l ↔ y ∈ l := by
  induction l with
  | nil => simp [sortPairs]
  | cons x xs ih =>
    show y ∈ rankInsert x (sortPairs xs) ↔ _
    rw [mem_rankInsert, ih]
    simp [List.mem_cons]

theorem length_scoreList (q : Vec) (vs : List Vec) (i : Nat) :
    (scoreList q vs i).length = vs.length := by
  induction vs generalizing i with
  | nil => rfl
  | cons v vs ih => simp [scoreList, ih]

theorem scoreList_mem {q : Vec} {vs : List Vec} {i : Nat} {p : Nat × Rat}
    (h : p ∈ scoreList q vs i) :
    i ≤ p.1 ∧ p.1 - i < vs.length ∧
      ∃ v, vs.get? (p.1 - i) = some v ∧ p.2 = innerProd q v := by
  induction vs generalizing i with
  | nil => cases h
  | cons v vs ih =>
    rcases List.mem_cons.mp h with hh | hh
    · subst hh
      exact ⟨Nat.le_refl _, by simp, v, by simp, rfl⟩
    · obtain ⟨h1, h2, w, hw, hs⟩ := ih hh
      refine ⟨by omega, by simp; omega, w, ?_, hs⟩
      have : p.1 - i = (p.1 - (i + 1)) + 1 := by omega
      rw [this]
      simpa using hw

theorem indexSearch_mem {vectors : List Vec} {q : Vec} {k : Nat} {p : Nat × Rat}
    (h : p ∈ indexSearch vectors q k) :
    p.1 < vectors.length ∧ ∃ v, vectors.get? p.1 = some v ∧ p.2 = innerProd q v := by
  have h2 : p ∈ sortPairs (scoreList q vectors 0) := List.take_subset _ _ h
  have h3 : p ∈ scoreList q vectors 0 := mem_sortPairs.mp h2
  obtain ⟨_, hlt, v, hv, hs⟩ := scoreList_mem h3
  simp only [Nat.sub_zero] at hlt hv
  exact ⟨hlt, v, hv, hs⟩

theorem length_indexSearch (vectors : List Vec) (q : Vec) (k : Nat) :
    (indexSearch vectors q k).length = min k vectors.length := by
  unfold indexSearch
  rw [List.length_take, length_sortPairs, length_scoreList]

theorem joinResults_length {metadata : List Chunk} {pairs : List (Nat × Rat)}
    (h : ∀ p ∈ pairs, p.1 < metadata.length) :
    (joinResults metadata pairs).length = pairs.length := by
  induction pairs with
  | nil => rfl
  | cons p ps ih =>
    have hp : p.1 < metadata.length := h p (List.mem_cons_self _ _)
    unfold joinResults
    rw [List.filterMap_cons]
    rw [List.get?_eq_get hp]
    simp only []
    show (⟨(metadata.get ⟨p.1, hp⟩).id, _, _, _⟩ :: joinResults metadata ps).length = ps.length + 1
    rw [List.length_cons]
    rw [ih (fun x hx => h x (List.mem_cons_of_mem _ hx))]

theorem joinResults_mem {metadata : List Chunk} {pairs : List (Nat × Rat)} {r : SearchResult}
    (h : r ∈ joinResults metadata pairs) :
    ∃ p ∈ pairs, ∃ m, metadata.get? p.1 = some m ∧
      r = ⟨m.id, m.text, m.source, p.2⟩ := by
  unfold joinResults at h
  rw [List.mem_filterMap] at h
  obtain ⟨p, hp, hr⟩ := h
  cases hm : metadata.get? p.1 with
  | none => rw [hm] at hr; cases hr
  | some m =>
    rw [hm] at hr
    simp only [Option.some.injEq] at hr
    exact ⟨p, hp, m, hm, hr.symm⟩

theorem build_index_ok {embed : String → Vec} {chunks : List Chunk} {st : IndexState}
    (h : build_index embed chunks = Except.ok st) :
    st.metadata = chunks ∧ st.vectors = chunks.map (fun c => embed c.text) := by
  unfold build_index at h
  cases henc : Embedder.encode embed (chunks.map (fun c => c.text)) with
  | error e => rw [henc] at h; cases h
  | ok embeddings =>
    rw [henc] at h
    simp only [Except.ok.injEq] at h
    unfold Embedder.encode at henc
    split at henc
    · cases henc
    · simp only [Except.ok.injEq] at henc
      subst h
      refine ⟨rfl, ?_⟩
      show embeddings = _
      rw [← henc, List.map_map]
      rfl

theorem encode_single {embed : String → Vec} {query : String}
    (hq : pyStrip query.data ≠ []) :
    Embedder.encode embed [query] = Except.ok [embed query] := by
  unfold Embedder.encode
  have hcond : ([query].isEmpty || [query].all fun t => decide (pyStrip t.data = [])) = false := by
    simp [hq]
  rw [hcond]
  rfl

/-- Claim C7: whenever the dimensionality of the query embedding differs
from the dimension `d` of the stored index, `search` fails with the
dimension-mismatch error reporting both dimensions — it neither
truncates nor pads. -/
theorem c7_dim_mismatch (embed : String → Vec) (idx : IndexState) (query : String) (k : Nat)
    (hq : pyStrip query.data ≠ [])
    (hd : (embed query).length ≠ idx.d) :
    search embed (some idx) query k =
      Except.error (PyErr.dimMismatch (embed query).length idx.d) := by
  unfold search
  rw [if_neg hq]
  dsimp only
  rw [encode_single hq]
  dsimp only
  simp only [List.headD_cons]
  rw [if_pos hd]

/-- Claim C7, witness: a 1-dimensional query embedding against a
2-dimensional index. -/
theorem c7_witness :
    search (fun _ => ([1] : Vec)) (some ⟨2, [[1, 0]], [⟨"a_0", "t", "a"⟩]⟩) "q" 3 =
      Except.error (PyErr.dimMismatch 1 2) :=
  c7_dim_mismatch (fun _ => ([1] : Vec)) ⟨2, [[1, 0]], [⟨"a_0", "t", "a"⟩]⟩ "q" 3
    (by decide) (by decide)

theorem search_ok_shape {embed : String → Vec} {st : IndexState} {query : String} {k : Nat}
    (hq : pyStrip query.data ≠ []) (hd : (embed query).length = st.d) :
    search embed (some st) query k =
      Except.ok (joinResults st.metadata
        (indexSearch st.vectors (embed query) (min k st.vectors.length))) := by
  unfold search
  rw [if_neg hq]
  dsimp only
  rw [encode_single hq]
  dsimp only
  simp only [List.headD_cons]
  rw [if_neg (fun hcon => hcon hd)]

/-- Claim C8: with an index produced by `build_index` and a matching
query embedding, a non-blank query with `k` strictly greater than
`ntotal` returns exactly `ntotal` results and does not raise. -/
theorem c8_topk_clamp (embed : String → Vec) (chunks : List Chunk) (st : IndexState)
    (query : String) (k : Nat)
    (hb : build_index embed chunks = Except.ok st)
    (hq : pyStrip query.data ≠ [])
    (hd : (embed query).length = st.d)
    (hk : st.vectors.length < k) :
    ∃ rs, search embed (some st) query k = Except.ok rs ∧
      rs.length = st.vectors.length := by
  obtain ⟨hmeta, hvec⟩ := build_index_ok hb
  refine ⟨_, search_ok_shape hq hd, ?_⟩
  have hlen : st.metadata.length = st.vectors.length := by
    rw [hmeta, hvec, List.length_map]
  rw [joinResults_length, length_indexSearch]
  · omega
  · intro p hp
    have := (indexSearch_mem hp).1
    omega

/-- Claim C8, witness: a two-vector index queried with `k = 5` yields
exactly two results. -/
theorem c8_witness :
    ∃ rs, search (fun _ => ([1] : Vec))
        (some ⟨1, [[1], [1]], [⟨"a_0", "x", "a"⟩, ⟨"a_1", "y", "a"⟩]⟩) "q" 5 =
        Except.ok rs ∧ rs.length = 2 :=
  c8_topk_clamp (fun _ => ([1] : Vec)) [⟨"a_0", "x", "a"⟩, ⟨"a_1", "y", "a"⟩]
    ⟨1, [[1], [1]], [⟨"a_0", "x", "a"⟩, ⟨"a_1", "y", "a"⟩]⟩ "q" 5
    rfl (by decide) (by decide) (by decide)

/-- Claim C3: `build_index` stores metadata and vectors in the same
insertion order — the metadata list is exactly the chunk list and the
vector at offset `i` is the embedding of the text of chunk `i`; every offset
returned by a search on the stored vectors is a valid metadata index
whose entry is the chunk inserted at that offset, and every joined
search result carries the `id`, `text` and `source` of such a chunk.
The offset is the only key joining the two sequences. -/
theorem c3_alignment (embed : String → Vec) (chunks : List Chunk) (st : IndexState)
    (hb : build_index embed chunks = Except.ok st) :
    st.metadata = chunks ∧
    st.vectors = chunks.map (fun c => embed c.text) ∧
    (∀ q k p, p ∈ indexSearch st.vectors q k →
      p.1 < st.metadata.length ∧
      ∃ c, st.metadata.get? p.1 = some c ∧ chunks.get? p.1 = some c ∧
        st.vectors.get? p.1 = some (embed c.text)) ∧
    (∀ query k rs, search embed (some st) query k = Except.ok rs →
      ∀ r ∈ rs, ∃ i c, chunks.get? i = some c ∧
        r.id = c.id ∧ r.text = c.text ∧ r.source = c.source) := by
  obtain ⟨hmeta, hvec⟩ := build_index_ok hb
  have hlen : st.metadata.length = st.vectors.length := by
    rw [hmeta, hvec, List.length_map]
  refine ⟨hmeta, hvec, ?_, ?_⟩
  · intro q k p hp
    obtain ⟨hlt, v, hv, _⟩ := indexSearch_mem hp
    have hlt2 : p.1 < st.metadata.length := by omega
    have hc : ∃ c, chunks.get? p.1 = some c := by
      rw [← hmeta]
      exact ⟨_, List.get?_eq_get hlt2⟩
    obtain ⟨c, hc⟩ := hc
    refine ⟨hlt2, c, by rw [hmeta]; exact hc, hc, ?_⟩
    rw [hvec, List.get?_map, hc]
    rfl
  · intro query k rs hs r hr
    by_cases hq : pyStrip query.data = []
    · unfold search at hs
      rw [if_pos hq] at hs
      cases hs
    · by_cases hd : (embed query).length = st.d
      · rw [search_ok_shape hq hd] at hs
        simp only [Except.ok.injEq] at hs
        subst hs
        obtain ⟨p, hp, m, hm, hrm⟩ := joinResults_mem hr
        refine ⟨p.1, m, by rw [← hmeta]; exact hm, ?_, ?_, ?_⟩ <;> rw [hrm]
      · unfold search at hs
        rw [if_neg hq] at hs
        dsimp only at hs
        rw [encode_single hq] at hs
        dsimp only at hs
        simp only [List.headD_cons] at hs
        rw [if_pos hd] at hs
        cases hs

/-- Claim C3, witness: on an index built from two concrete chunks the
metadata list is the chunk list itself and the vectors are the
embeddings of the chunk texts in the same order. -/
theorem c3_witness :
    (⟨1, [[1], [1]], [⟨"a_0", "x", "a"⟩, ⟨"a_1", "y", "a"⟩]⟩ : IndexState).metadata =
        [⟨"a_0", "x", "a"⟩, ⟨"a_1", "y", "a"⟩] ∧
    (⟨1, [[1], [1]], [⟨"a_0", "x", "a"⟩, ⟨"a_1", "y", "a"⟩]⟩ : IndexState).vectors =
        ([⟨"a_0", "x", "a"⟩, ⟨"a_1", "y", "a"⟩] : List Chunk).map
          (fun c => (fun _ => ([1] : Vec)) c.text) := by
  have h := c3_alignment (fun _ => ([1] : Vec)) [⟨"a_0", "x", "a"⟩, ⟨"a_1", "y", "a"⟩]
    ⟨1, [[1], [1]], [⟨"a_0", "x", "a"⟩, ⟨"a_1", "y", "a"⟩]⟩ rfl
  exact ⟨h.1, h.2.1⟩

/-- Claim C2, counterexample: with a corrupt PDF alongside a perfectly
extractable text file, `ingest` fails outright with the extraction
error — it does not proceed with the file that did extract (ingesting
the good file alone succeeds), and no per-file outcome is reported. -/
theorem c2_counterexample :
    ingest (fun s => [s]) (fun _ => ([1] : Vec)) true
        [⟨"bad.pdf", ".pdf", false, Except.error "corrupt"⟩,
         ⟨"good.txt", ".txt", false, Except.ok "hello world"⟩] =
      Except.error (PyErr.extractionError "corrupt") ∧
    ingest (fun s => [s]) (fun _ => ([1] : Vec)) true
        [⟨"good.txt", ".txt", false, Except.ok "hello world"⟩] = Except.ok 1 :=
  ⟨rfl, rfl⟩

/-- Claim C2, amended: a directory entry or a file with an unrecognised
extension is skipped without affecting the rest of the ingest, but an
extraction failure of a supported file propagates out of
`iter_documents` and aborts the entire ingestion run; no per-file
outcome is reported to the caller. -/
theorem c2_amended :
    (∀ (f : SrcFile) (fs : List SrcFile) (msg : String),
      f.isDir = false → supportedSuffix (strLower f.suffix) = true →
      f.extract = Except.error msg →
      iter_documents (f :: fs) = Except.error (PyErr.extractionError msg)) ∧
    (∀ (f : SrcFile) (fs : List SrcFile),
      f.isDir = true ∨ supportedSuffix (strLower f.suffix) = false →
      iter_documents (f :: fs) = iter_documents fs) ∧
    (∀ (split : String → List String) (embed : String → Vec) (files : List SrcFile) (e : PyErr),
      iter_documents files = Except.error e →
      ingest split embed true files = Except.error e) := by
  refine ⟨?_, ?_, ?_⟩
  · intro f fs msg hdir hsup hext
    unfold iter_documents
    rw [hdir, hsup, hext]
    rfl
  · intro f fs h
    conv_lhs => rw [iter_documents.eq_def]
    dsimp only
    rcases h with h | h
    · rw [h]
      simp
    · rw [h]
      by_cases hdir : f.isDir = true
      · rw [hdir]
        simp
      · simp only [Bool.not_eq_true] at hdir
        rw [hdir]
        simp
  · intro split embed files e h
    unfold ingest
    rw [h]
    rfl

/-- Claim C2, witness for the amended theorem: a single corrupt
supported file aborts the iteration with its extraction error. -/
theorem c2_witness :
    iter_documents [⟨"bad.pdf", ".pdf", false, Except.error "boom"⟩] =
      Except.error (PyErr.extractionError "boom") :=
  c2_amended.1 ⟨"bad.pdf", ".pdf", false, Except.error "boom"⟩ [] "boom" rfl rfl rfl

theorem chunk_documents_blank (split : String → List String) {docs : List RawDoc}
    (h : ∀ d ∈ docs, pyStrip d.text.data = []) :
    chunk_documents split docs = [] := by
  induction docs with
  | nil => rfl
  | cons d ds ih =>
    unfold chunk_documents
    rw [List.flatMap_cons]
    rw [if_pos (h d (List.mem_cons_self _ _))]
    rw [List.nil_append]
    exact ih (fun x hx => h x (List.mem_cons_of_mem _ hx))

/-- Claim C9: an ingest run that finds no extractable text — either no
documents at all, or only documents whose text is blank — fails with an
error that is fatal to the run (the no-documents error, or the
empty-batch error raised by the embedder on the empty chunk list). -/
theorem c9_empty_ingest (split : String → List String) (embed : String → Vec)
    (files : List SrcFile) (docs : List RawDoc)
    (hdocs : iter_documents files = Except.ok docs)
    (hblank : ∀ d ∈ docs, pyStrip d.text.data = []) :
    ingest split embed true files =
      Except.error (if docs.isEmpty then PyErr.noDocuments else PyErr.emptyTexts) := by
  unfold ingest
  rw [hdocs]
  dsimp only
  cases docs with
  | nil => rfl
  | cons d ds =>
    rw [chunk_documents_blank split hblank]
    rfl

/-- Claim C9, witness: one whitespace-only text file yields a fatal
empty-batch error. -/
theorem c9_witness :
    ingest (fun s => [s]) (fun _ => ([1] : Vec)) true
        [⟨"a.txt", ".txt", false, Except.ok "   "⟩] = Except.error PyErr.emptyTexts := by
  have h := c9_empty_ingest (fun s => [s]) (fun _ => ([1] : Vec))
    [⟨"a.txt", ".txt", false, Except.ok "   "⟩] [⟨"a.txt", "   "⟩] rfl (by decide)
  simpa using h

/-- Claim C10: calling `generate_answer`, `summarize_document` or
`generate_quiz` with an empty contexts list fails before any request is
made to the completion service — the operations return an error instead
of a request (for `generate_quiz`, independently of whatever the
service would have answered); when the earlier guards pass (API key
set, and a non-blank question for `generate_answer`) the error is
exactly the "Contexts cannot be empty" one. -/
theorem c10_empty_contexts (apiKeySet : Bool) (question : String) (max_length n : Nat)
    (difficulty : String) (topic : Option String) (completion : Except Unit String) :
    (∃ e, generate_answer apiKeySet question [] = Except.error e) ∧
    (∃ e, summarize_document apiKeySet [] max_length = Except.error e) ∧
    (∃ e, generate_quiz_request apiKeySet [] n difficulty topic = Except.error e) ∧
    (∃ e, generate_quiz apiKeySet [] n difficulty topic completion = Except.error e) ∧
    (apiKeySet = true → pyStrip question.data ≠ [] →
      generate_answer apiKeySet question [] = Except.error PyErr.contextsEmpty) ∧
    (apiKeySet = true →
      summarize_document apiKeySet [] max_length = Except.error PyErr.contextsEmpty ∧
      generate_quiz apiKeySet [] n difficulty topic completion =
        Except.error PyErr.contextsEmpty) := by
  have hquiz : ∀ hk : apiKeySet = true,
      generate_quiz apiKeySet [] n difficulty topic completion =
        Except.error PyErr.contextsEmpty := by
    intro hk
    subst hk
    rfl
  refine ⟨?_, ?_, ?_, ?_, ?_, ?_⟩
  · cases apiKeySet with
    | false => exact ⟨PyErr.apiKeyMissing, rfl⟩
    | true =>
      by_cases hq : pyStrip question.data = []
      · refine ⟨PyErr.questionEmpty, ?_⟩
        unfold generate_answer
        rw [if_pos hq]
        rfl
      · refine ⟨PyErr.contextsEmpty, ?_⟩
        unfold generate_answer
        rw [if_neg hq]
        rfl
  · cases apiKeySet with
    | false => exact ⟨PyErr.apiKeyMissing, rfl⟩
    | true => exact ⟨PyErr.contextsEmpty, rfl⟩
  · cases apiKeySet with
    | false => exact ⟨PyErr.apiKeyMissing, rfl⟩
    | true => exact ⟨PyErr.contextsEmpty, rfl⟩
  · cases apiKeySet with
    | false => exact ⟨PyErr.apiKeyMissing, rfl⟩
    | true => exact ⟨PyErr.contextsEmpty, hquiz rfl⟩
  · intro hk hq
    subst hk
    unfold generate_answer
    rw [if_neg hq]
    rfl
  · intro hk
    exact ⟨by subst hk; rfl, hquiz hk⟩

/-- Claim C10, witness: with the API key set and a non-blank question,
empty contexts produce exactly the contexts-cannot-be-empty error in
`generate_answer`, and likewise in `generate_quiz` without the service
ever being consulted. -/
theorem c10_witness :
    generate_answer true "What is AI?" [] = Except.error PyErr.contextsEmpty ∧
    generate_quiz true [] 5 "medium" none (Except.ok "ignored") =
      Except.error PyErr.contextsEmpty := by
  have h := c10_empty_contexts true "What is AI?" 500 5 "medium" none (Except.ok "ignored")
  exact ⟨h.2.2.2.2.1 rfl (by decide), (h.2.2.2.2.2 rfl).2⟩
